import Mathlib

/-
Verification development for the AI-Pdf-Chatbot repository (ManthanAI).

The repository is a Streamlit document question-answering app. The core
modules embedded here are:
  backend/ingestion.py  (file parsing and chunking),
  backend/embedding.py  (hybrid retriever construction),
  backend/chat.py       (the answer-mode controller handle_user_query),
  app.py and ap.py      (two application variants: session state handling,
                         file-upload handler, and the per-message dispatch
                         inside each main function).

External effectful calls (Streamlit widgets, the Gemini generation model,
the Cohere re-ranker, FAISS, file parsing libraries) are embedded by
passing their observable outcomes as explicit parameters, and by recording
which capabilities a code path invokes in an explicit event trace.
Python strings are modelled as Lean String values; Python string methods
lower, strip and the in operator are modelled by executable functions on
the underlying character lists below.
-/

/-- Models the Python method str.lower (per-character lowering; the inputs
relevant to the claims are ASCII). -/
def pyLower (s : String) : String := ⟨s.data.map Char.toLower⟩

/-- Drops leading and trailing whitespace from a character list. -/
def stripList (l : List Char) : List Char :=
  ((l.dropWhile Char.isWhitespace).reverse.dropWhile Char.isWhitespace).reverse

/-- Models the Python method str.strip with no arguments. -/
def pyStrip (s : String) : String := ⟨stripList s.data⟩

/-- Boolean infix test on character lists: true when needle occurs as a
contiguous sublist of the second argument. -/
def infixCheck (needle : List Char) : List Char → Bool
  | [] => needle.isEmpty
  | c :: cs => needle.isPrefixOf (c :: cs) || infixCheck needle cs

/-- Models the Python expression needle in hay for strings. -/
def containsSubstr (hay needle : String) : Bool := infixCheck needle.data hay.data

/-- Models langchain_core.documents.Document as produced by ingestion.py:
page_content plus the metadata dictionary, whose keys in this repository
are always source and optionally page (PDF) or slide (PPTX). The optional
metadata entries are modelled as Option fields. -/
structure Document where
  page_content : String
  source : String
  page : Option Nat
  slide : Option Nat
deriving DecidableEq

/-- The console message printed by _parse_pdf on a caught exception,
f-string Error parsing PDF (filename): (e) from ingestion.py line 66. -/
def pdfErrorLog (filename err : String) : String :=
  "Error parsing PDF \x27" ++ filename ++ "\x27: " ++ err

/-- The console message printed by _parse_docx on a caught exception. -/
def docxErrorLog (filename err : String) : String :=
  "Error parsing DOCX \x27" ++ filename ++ "\x27: " ++ err

/-- The console message printed by _parse_pptx on a caught exception. -/
def pptxErrorLog (filename err : String) : String :=
  "Error parsing PPTX \x27" ++ filename ++ "\x27: " ++ err

/-- The console warning printed by process_uploaded_files for an
unsupported file extension. -/
def unsupportedLog (ext filename : String) : String :=
  "Warning: Unsupported file type \x27" ++ ext ++ "\x27 for file \x27" ++
    filename ++ "\x27. Skipping."

/-- Embeds the page loop of _parse_pdf (ingestion.py lines 57 to 64).
The extraction behaviour of PyMuPDF on one page is abstracted as an
Except value: ok text is a page whose get_text call returns text, error e
is a page whose get_text call raises. The Python loop appends a Document
for every already visited page with nonempty text; an exception raised
mid-loop is caught by the surrounding handler, which keeps the documents
accumulated so far, prints the error and returns. The first component is
the accumulated document list, the second the printed error messages. -/
def pdfPagesLoop (filename : String) : Nat → List (Except String String) →
    List Document × List String
  | _, [] => ([], [])
  | _, .error e :: _ => ([], [pdfErrorLog filename e])
  | n, .ok text :: rest =>
      ((if text = "" then [] else
          [{ page_content := text, source := filename,
             page := some (n + 1), slide := none }]) ++
         (pdfPagesLoop filename (n + 1) rest).1,
       (pdfPagesLoop filename (n + 1) rest).2)

/-- Embeds _parse_pdf (ingestion.py lines 53 to 67). The argument
openResult abstracts fitz.open: error e is a corrupt or unreadable stream
(the open call raises, the handler prints and returns the empty list),
ok pages gives the per-page extraction outcomes. -/
def _parse_pdf (openResult : Except String (List (Except String String)))
    (filename : String) : List Document × List String :=
  match openResult with
  | .error e => ([], [pdfErrorLog filename e])
  | .ok pages => pdfPagesLoop filename 0 pages

/-- Embeds _parse_docx (ingestion.py lines 69 to 83). The argument
openResult abstracts docx.Document: ok paras gives the paragraph texts in
order. The code joins the nonempty paragraph texts with a line break and
emits a single Document carrying only the source metadata key when the
joined text is nonempty. -/
def _parse_docx (openResult : Except String (List String)) (filename : String) :
    List Document × List String :=
  match openResult with
  | .error e => ([], [docxErrorLog filename e])
  | .ok paras =>
      (if String.intercalate "\n" (paras.filter (fun p => p != "")) = "" then []
       else
         [{ page_content := String.intercalate "\n" (paras.filter (fun p => p != "")),
            source := filename, page := none, slide := none }],
       [])

/-- Embeds the slide loop of _parse_pptx (ingestion.py lines 90 to 100).
Each slide is abstracted as the list of text attributes of its shapes
that have one; the code concatenates each with a trailing line break and
emits a Document for slides whose concatenation has nonempty strip. -/
def pptxSlidesLoop (filename : String) : Nat → List (List String) →
    List Document × List String
  | _, [] => ([], [])
  | n, shapes :: rest =>
      ((if pyStrip (String.join (shapes.map (fun t => t ++ "\n"))) = "" then []
        else
          [{ page_content := String.join (shapes.map (fun t => t ++ "\n")),
             source := filename, page := none, slide := some (n + 1) }]) ++
         (pptxSlidesLoop filename (n + 1) rest).1,
       (pptxSlidesLoop filename (n + 1) rest).2)

/-- Embeds _parse_pptx (ingestion.py lines 85 to 103); openResult
abstracts the Presentation constructor. -/
def _parse_pptx (openResult : Except String (List (List String)))
    (filename : String) : List Document × List String :=
  match openResult with
  | .error e => ([], [pptxErrorLog filename e])
  | .ok slides => pptxSlidesLoop filename 0 slides

/-- The abstract content of an uploaded file stream, as seen by the parser
that the dispatcher selects: what each format-specific open call and
extraction would yield on this stream. -/
inductive FileData where
  | pdf (openResult : Except String (List (Except String String)))
  | docx (openResult : Except String (List String))
  | pptx (openResult : Except String (List (List String)))

/-- An uploaded file object as consumed by process_uploaded_files: its
name, the lowercased extension that os.path.splitext yields on the name,
and the abstract stream content. -/
structure UploadedFile where
  name : String
  ext : String
  data : FileData

/-- The dispatch body of process_uploaded_files (ingestion.py lines 133
to 141) for a single file: route by extension to the matching parser,
else print a warning and skip. When the declared extension does not match
the actual stream content, the selected parser raises at its open call;
that is embedded as the open-error outcome with a fixed message. -/
def parseFile (f : UploadedFile) : List Document × List String :=
  if f.ext = ".pdf" then
    match f.data with
    | .pdf r => _parse_pdf r f.name
    | _ => ([], [pdfErrorLog f.name "invalid stream"])
  else if f.ext = ".docx" then
    match f.data with
    | .docx r => _parse_docx r f.name
    | _ => ([], [docxErrorLog f.name "invalid stream"])
  else if f.ext = ".pptx" then
    match f.data with
    | .pptx r => _parse_pptx r f.name
    | _ => ([], [pptxErrorLog f.name "invalid stream"])
  else
    ([], [unsupportedLog f.ext f.name])

/-- Embeds process_uploaded_files (ingestion.py lines 107 to 143): skip
None entries, dispatch every other file to its parser, concatenate the
resulting document lists in input order. The second component collects
the printed warnings and error messages. -/
def process_uploaded_files : List (Option UploadedFile) → List Document × List String
  | [] => ([], [])
  | none :: rest => process_uploaded_files rest
  | some f :: rest =>
      ((parseFile f).1 ++ (process_uploaded_files rest).1,
       (parseFile f).2 ++ (process_uploaded_files rest).2)

/-- Modelled from the spec: get_text_chunks (ingestion.py lines 26 to 49)
delegates the actual splitting to RecursiveCharacterTextSplitter from the
langchain library, whose implementation is not part of this repository.
Spec section 4.2 specifies the algorithm: scan each unit content in
strides of (max_chunk_size minus overlap_size), emitting a window of up
to max_chunk_size characters; the final window may be shorter; empty
input yields empty output. -/
def chunkContent (maxSize overlap : Nat) (h : overlap < maxSize)
    (content : List Char) : List (List Char) :=
  if content.isEmpty then []
  else if _h2 : content.length ≤ maxSize then [content]
  else
    content.take maxSize ::
      chunkContent maxSize overlap h (content.drop (maxSize - overlap))
termination_by content.length
decreasing_by
  simp only [List.length_drop]
  omega

/-- The configured chunk size of get_text_chunks (ingestion.py line 42). -/
def chunk_size : Nat := 1000

/-- The configured chunk overlap of get_text_chunks (ingestion.py line 45). -/
def chunk_overlap : Nat := 200

/-- The chunks derived from one Document: each character window becomes a
Document that inherits the parent metadata verbatim. -/
def chunksOfDoc (d : Document) : List Document :=
  (chunkContent chunk_size chunk_overlap (by decide) d.page_content.data).map
    (fun cs => { d with page_content := ⟨cs⟩ })

/-- Embeds get_text_chunks (ingestion.py lines 26 to 49): split every
document of the batch, preserving metadata, in input order. -/
def get_text_chunks (documents : List Document) : List Document :=
  documents.flatMap chunksOfDoc

/-- Concatenation of a chunk sequence with the overlap region of each
chunk after the first removed, keeping only the novel suffix. -/
def reconstructFromChunks (overlap : Nat) : List (List Char) → List Char
  | [] => []
  | c :: cs => c ++ (cs.map (List.drop overlap)).flatten

/-- The retriever object built by create_hybrid_retriever, abstracted to
its configuration: the indexed chunk set and the two tuning parameters.
The wrapped external services (embeddings, BM25, FAISS, the Cohere
re-ranker) are out of scope per spec section 1. -/
structure HybridRetriever where
  docs : List Document
  k : Nat
  rerank_top_n : Nat
deriving DecidableEq

/-- The construction side effects of create_hybrid_retriever, in source
order (embedding.py lines 65 to 100): each constructor call that builds a
retrieval component. -/
inductive BuildEvent where
  | embeddingsInit
  | bm25Build
  | faissBuild
  | ensembleBuild
  | rerankInit
  | compressionBuild
deriving DecidableEq

/-- The ValueError message raised for an empty document list
(embedding.py line 59). -/
def EMPTY_DOCS_ERROR : String :=
  "Cannot create retriever from an empty list of documents."

/-- The ValueError message raised for a missing API key
(embedding.py line 61). -/
def MISSING_KEYS_ERROR : String :=
  "Google and Cohere API keys must be provided."

/-- Embeds create_hybrid_retriever (embedding.py lines 31 to 103). A
missing key (Python None or empty string, both falsy) is modelled as the
empty string. The returned trace records which retrieval components were
constructed before the function returned or raised; a raised ValueError
is the error case of the Except. -/
def create_hybrid_retriever (docs : List Document)
    (google_api_key cohere_api_key : String) (k rerank_top_n : Nat) :
    Except String HybridRetriever × List BuildEvent :=
  if docs.isEmpty then (.error EMPTY_DOCS_ERROR, [])
  else if google_api_key = "" || cohere_api_key = "" then
    (.error MISSING_KEYS_ERROR, [])
  else
    (.ok { docs := docs, k := k, rerank_top_n := rerank_top_n },
     [.embeddingsInit, .bm25Build, .faissBuild, .ensembleBuild, .rerankInit,
      .compressionBuild])

/-- The events a controller code path can trigger: a similarity search
against the vector index, or an invocation of the generation model. -/
inductive ChatEvent where
  | retrievalCall
  | generationCall
deriving DecidableEq

/-- The loaded vector store of chat.py, abstracted to the observable it
provides to handle_user_query: the result of similarity_search with k
fixed to 5 for a given question. -/
structure VectorStore where
  similarity_search : String → List Document

/-- The dictionary returned by handle_user_query (chat.py): the answer
text under output_text and the cited chunks under source_documents. -/
structure QueryResponse where
  output_text : String
  source_documents : List Document
deriving DecidableEq

/-- The marker substring that handle_user_query searches for in the model
response (chat.py line 119); the quote is the Unicode right single
quotation mark used in the source. -/
def refusalMarker : String := "couldn’t find this information"

/-- The literal refusal phrase that PDF_ONLY_PROMPT_TEMPLATE instructs
the model to emit when the context lacks the answer (chat.py line 27). -/
def REFUSAL_PHRASE : String :=
  "I\x27m sorry, I couldn’t find this information in the uploaded documents."

/-- The guidance response of handle_user_query when no vector store is
loaded (chat.py line 101). -/
def KB_NOT_INITIALIZED : String :=
  "The knowledge base is not initialized. Please upload and process your documents."

/-- The text appended to a general-knowledge fallback answer in Hybrid
mode (chat.py lines 126 to 129). -/
def DISCLAIMER_SUFFIX : String :=
  "\n\n---\n*Disclaimer: This answer was generated using general knowledge as the information was not found in the uploaded documents.*"

/-- Embeds handle_user_query (chat.py lines 82 to 135). Effectful calls
are abstracted as inputs: vector_store is the outcome of
load_vector_store (None when the knowledge base is absent), pdfChainAnswer
gives the text the PDF-only chain returns for given input documents and
question, generalModelAnswer the text of the direct model invocation used
for the Hybrid fallback. The chain is invoked with return_only_outputs
False, so its input_documents output equals the retrieved documents. The
returned trace records the retrieval and generation calls the executed
path performs, in order. -/
def handle_user_query (user_question : String) (answer_mode : String)
    (vector_store : Option VectorStore)
    (pdfChainAnswer : List Document → String → String)
    (generalModelAnswer : String → String) :
    QueryResponse × List ChatEvent :=
  match vector_store with
  | none =>
      ({ output_text := KB_NOT_INITIALIZED, source_documents := [] }, [])
  | some vs =>
      if containsSubstr (pdfChainAnswer (vs.similarity_search user_question) user_question)
          refusalMarker then
        if answer_mode = "Hybrid" then
          ({ output_text := generalModelAnswer user_question ++ DISCLAIMER_SUFFIX,
             source_documents := [] },
           [.retrievalCall, .generationCall, .generationCall])
        else
          ({ output_text := pdfChainAnswer (vs.similarity_search user_question) user_question,
             source_documents := [] },
           [.retrievalCall, .generationCall])
      else
        ({ output_text := pdfChainAnswer (vs.similarity_search user_question) user_question,
           source_documents := vs.similarity_search user_question },
         [.retrievalCall, .generationCall])

/-- The failure modes of a generation-service call, per the google api
exception taxonomy used in ap.py: ResourceExhausted (rate or overload)
versus any other exception. -/
inductive GenError where
  | resourceExhausted
  | otherError (msg : String)
deriving DecidableEq

/-- One entry of st.session_state.chat_history: role, content and, for
answers produced by the rag branch of app.py, the cited sources. -/
structure ChatMessage where
  role : String
  content : String
  sources : List Document
deriving DecidableEq

/-- The Streamlit session state fields that the claims concern, shared by
app.py and ap.py: chat history, the installed retriever, the selected
answer mode and the uploaded-files map (an insertion-ordered dict,
modelled as an association list from file name to bytes). -/
structure SessionState where
  chat_history : List ChatMessage
  retriever : Option HybridRetriever
  search_mode : String
  uploaded_files_data : List (String × String)
deriving DecidableEq

/-- Embeds handle_file_upload (app.py lines 78 to 97 and identically
ap.py lines 49 to 68). uploader_files is the file-uploader widget value
as (name, bytes) pairs, empty when the widget is falsy. chunksOutcome is
the outcome of running process_uploaded_files then get_text_chunks on the
uploaded streams (error means an exception was raised somewhere in that
pipeline); buildOutcome the outcome of create_hybrid_retriever on the
chunks. The code stores the uploaded-files map before parsing, shows an
error and returns early when no chunks were extracted (keeping the
previously installed retriever), installs the new retriever on success,
and on any caught exception resets the retriever to None and the
uploaded-files map to empty. -/
def handle_file_upload (st : SessionState)
    (uploader_files : List (String × String))
    (chunksOutcome : Except String (List Document))
    (buildOutcome : Except String HybridRetriever) : SessionState :=
  if uploader_files.isEmpty then st
  else
    match chunksOutcome with
    | .error _ => { st with retriever := none, uploaded_files_data := [] }
    | .ok text_chunks =>
        if text_chunks.isEmpty then
          { st with uploaded_files_data := uploader_files }
        else
          match buildOutcome with
          | .ok r =>
              { st with retriever := some r, uploaded_files_data := uploader_files }
          | .error _ => { st with retriever := none, uploaded_files_data := [] }

/-- The greeting list of app.py line 189 and ap.py line 141. -/
def GREETINGS : List String := ["hi", "hello", "hey"]

/-- The canned greeting reply of app.py line 194 and ap.py line 147. -/
def CANNED_GREETING : String := "Hello! How can I help you today?"

/-- The fixed apology appended by ap.py lines 181 to 185 when the
general-chat branch hits ResourceExhausted. -/
def HIGH_TRAFFIC_APOLOGY : String :=
  "I\x27m sorry, the AI is experiencing high traffic right now. Please try again in a moment."

/-- The degraded-mode notice prefixed by ap.py lines 166 to 169 to the
PDF-Only fallback answer. -/
def BUSY_WARNING : String :=
  "The advanced AI model is busy due to high traffic. Here is a response based only on your documents:\n\n---\n\n"

/-- The st.error text of the generic exception handler in both mains. -/
def couldNotGetResponse (e : GenError) : String :=
  "Could not get a response: " ++
    (match e with
     | .resourceExhausted => "429 Resource has been exhausted"
     | .otherError m => m)

/-- The calls a main dispatch path can make: get_rag_response with a
given mode argument, or a direct generative-model call. -/
inductive CallEvent where
  | ragCall (mode : String)
  | generalCall
deriving DecidableEq

/-- The observable outcome of one user-input dispatch of a main function:
the session state afterwards, the st.error text shown if any, the
exception that escaped the handler if any, and the capability calls made. -/
structure StepResult where
  state : SessionState
  shownError : Option String
  raised : Option GenError
  events : List CallEvent
deriving DecidableEq

/-- Embeds the per-input dispatch of main in app.py (lines 189 to 214).
ragResponse gives, per mode argument, the outcome of
get_rag_response(user_input, retriever, key, mode) for this query (that
function is imported from backend.chat but absent from the repository
sources; only its call sites appear); generalResponse the outcome of the
direct gemini-pro call of the no-retriever branch. The code appends the
user message, answers greetings from the fixed list after lowercasing
and stripping the input, otherwise routes to the rag call when a
retriever is installed (no exception handler: a raised error escapes),
and otherwise to the general model, whose exceptions are all caught and
shown via st.error. -/
def app_main_step (st : SessionState) (user_input : String)
    (ragResponse : String → Except GenError QueryResponse)
    (generalResponse : Except GenError String) : StepResult :=
  if user_input = "" then
    { state := st, shownError := none, raised := none, events := [] }
  else
    let st1 : SessionState :=
      { st with chat_history :=
          st.chat_history ++ [{ role := "user", content := user_input, sources := [] }] }
    if GREETINGS.contains (pyStrip (pyLower user_input)) then
      { state :=
          { st1 with chat_history :=
              st1.chat_history ++ [{ role := "ai", content := CANNED_GREETING, sources := [] }] },
        shownError := none, raised := none, events := [] }
    else
      match st1.retriever with
      | some _ =>
          match ragResponse st1.search_mode with
          | .ok resp =>
              { state :=
                  { st1 with chat_history :=
                      st1.chat_history ++
                        [{ role := "ai", content := resp.output_text,
                           sources := resp.source_documents }] },
                shownError := none, raised := none,
                events := [.ragCall st1.search_mode] }
          | .error e =>
              { state := st1, shownError := none, raised := some e,
                events := [.ragCall st1.search_mode] }
      | none =>
          match generalResponse with
          | .ok t =>
              { state :=
                  { st1 with chat_history :=
                      st1.chat_history ++
                        [{ role := "ai", content := t, sources := [] }] },
                shownError := none, raised := none, events := [.generalCall] }
          | .error e =>
              { state := st1, shownError := some (couldNotGetResponse e),
                raised := none, events := [.generalCall] }

/-- Embeds the per-input dispatch of main in ap.py (lines 141 to 189).
Differences from app.py: the rag branch catches ResourceExhausted from
the first call and retries once with the mode argument fixed to PDF-Only,
prefixing the busy warning to the fallback answer; an exception from that
second call (or a non-ResourceExhausted exception from the first) is not
caught and escapes. The no-retriever branch answers ResourceExhausted
with the fixed high-traffic apology and any other exception with
st.error. -/
def ap_main_step (st : SessionState) (user_input : String)
    (ragResponse : String → Except GenError QueryResponse)
    (generalResponse : Except GenError String) : StepResult :=
  if user_input = "" then
    { state := st, shownError := none, raised := none, events := [] }
  else
    let st1 : SessionState :=
      { st with chat_history :=
          st.chat_history ++ [{ role := "user", content := user_input, sources := [] }] }
    if GREETINGS.contains (pyStrip (pyLower user_input)) then
      { state :=
          { st1 with chat_history :=
              st1.chat_history ++ [{ role := "ai", content := CANNED_GREETING, sources := [] }] },
        shownError := none, raised := none, events := [] }
    else
      match st1.retriever with
      | some _ =>
          match ragResponse st1.search_mode with
          | .ok resp =>
              { state :=
                  { st1 with chat_history :=
                      st1.chat_history ++
                        [{ role := "ai", content := resp.output_text, sources := [] }] },
                shownError := none, raised := none,
                events := [.ragCall st1.search_mode] }
          | .error .resourceExhausted =>
              match ragResponse "PDF-Only" with
              | .ok resp2 =>
                  { state :=
                      { st1 with chat_history :=
                          st1.chat_history ++
                            [{ role := "ai",
                               content := BUSY_WARNING ++ resp2.output_text,
                               sources := [] }] },
                    shownError := none, raised := none,
                    events := [.ragCall st1.search_mode, .ragCall "PDF-Only"] }
              | .error e2 =>
                  { state := st1, shownError := none, raised := some e2,
                    events := [.ragCall st1.search_mode, .ragCall "PDF-Only"] }
          | .error (.otherError m) =>
              { state := st1, shownError := none, raised := some (.otherError m),
                events := [.ragCall st1.search_mode] }
      | none =>
          match generalResponse with
          | .ok t =>
              { state :=
                  { st1 with chat_history :=
                      st1.chat_history ++
                        [{ role := "ai", content := t, sources := [] }] },
                shownError := none, raised := none, events := [.generalCall] }
          | .error .resourceExhausted =>
              { state :=
                  { st1 with chat_history :=
                      st1.chat_history ++
                        [{ role := "ai", content := HIGH_TRAFFIC_APOLOGY, sources := [] }] },
                shownError := none, raised := none, events := [.generalCall] }
          | .error (.otherError m) =>
              { state := st1,
                shownError := some (couldNotGetResponse (.otherError m)),
                raised := none, events := [.generalCall] }

/-- A concrete document used by counterexamples and witnesses. -/
def doc0 : Document :=
  { page_content := "hello world", source := "a.pdf", page := some 1, slide := none }

/-- A concrete retriever used by counterexamples and witnesses. -/
def r0 : HybridRetriever := { docs := [doc0], k := 10, rerank_top_n := 4 }

/-- A vector store whose similarity search returns no documents. -/
def vsEmpty : VectorStore := { similarity_search := fun _ => [] }

/-- A session state with a previously installed retriever and one stored
file, as left by a fully successful earlier build. -/
def stPrev : SessionState :=
  { chat_history := [], retriever := some r0, search_mode := "Hybrid",
    uploaded_files_data := [("a.pdf", "bytes")] }

/-- A session state in Hybrid mode with an installed retriever and empty
history. -/
def stHybrid : SessionState :=
  { chat_history := [], retriever := some r0, search_mode := "Hybrid",
    uploaded_files_data := [("a.pdf", "bytes")] }

/-- A session state with no retriever installed. -/
def stNoIndex : SessionState :=
  { chat_history := [], retriever := none, search_mode := "Hybrid",
    uploaded_files_data := [] }

/-- Helper: the flattened tails of the chunk sequence, each with its
overlap prefix removed, reproduce the content from position overlap on. -/
theorem chunk_flatten_drop (maxSize overlap : Nat) (h : overlap < maxSize) :
    ∀ (content : List Char),
      ((chunkContent maxSize overlap h content).map (List.drop overlap)).flatten
        = content.drop overlap := by
  suffices H : ∀ (n : Nat) (content : List Char), content.length = n →
      ((chunkContent maxSize overlap h content).map (List.drop overlap)).flatten
        = content.drop overlap by
    intro content
    exact H content.length content rfl
  intro n
  induction n using Nat.strong_induction_on with
  | _ n ih =>
    intro content hn
    rw [chunkContent]
    by_cases h1 : content.isEmpty
    · rw [List.isEmpty_iff.mp h1]
      simp
    · rw [if_neg h1]
      by_cases h2 : content.length ≤ maxSize
      · rw [dif_pos h2]
        simp
      · rw [dif_neg h2]
        have hlt : (content.drop (maxSize - overlap)).length < n := by
          simp only [List.length_drop]
          omega
        rw [List.map_cons, List.flatten_cons,
          ih _ hlt (content.drop (maxSize - overlap)) rfl]
        rw [List.drop_take, List.drop_drop]
        have he : maxSize - overlap + overlap = maxSize := by omega
        rw [he]
        have he2 : maxSize = overlap + (maxSize - overlap) := by omega
        calc List.take (maxSize - overlap) (content.drop overlap) ++ content.drop maxSize
            = List.take (maxSize - overlap) (content.drop overlap) ++
                List.drop (maxSize - overlap) (content.drop overlap) := by
              rw [List.drop_drop, ← he2]
          _ = content.drop overlap := List.take_append_drop _ _

/-- Helper: concatenating the chunks of a character sequence with each
later chunk stripped of its overlap prefix reproduces the sequence. -/
theorem chunk_reconstruction (maxSize overlap : Nat) (h : overlap < maxSize)
    (content : List Char) :
    reconstructFromChunks overlap (chunkContent maxSize overlap h content) = content := by
  rw [chunkContent]
  by_cases h1 : content.isEmpty
  · rw [List.isEmpty_iff.mp h1]
    simp [reconstructFromChunks]
  · rw [if_neg h1]
    by_cases h2 : content.length ≤ maxSize
    · rw [dif_pos h2]
      simp [reconstructFromChunks]
    · rw [dif_neg h2]
      simp only [reconstructFromChunks]
      rw [chunk_flatten_drop maxSize overlap h]
      rw [List.drop_drop]
      have he : maxSize - overlap + overlap = maxSize := by omega
      rw [he]
      exact List.take_append_drop _ _

/-- C1: for every TextUnit (Document) given to get_text_chunks, the
chunks derived from that unit are those of chunksOfDoc, in unit order,
and concatenating a unit chunk list with the overlap region of each chunk
after the first removed (keeping only the novel suffix) reproduces the
unit content exactly, with no character lost. -/
theorem c1_chunk_reconstruction :
    (∀ documents : List Document,
       get_text_chunks documents = documents.flatMap chunksOfDoc) ∧
    ∀ d : Document,
      reconstructFromChunks chunk_overlap
          ((chunksOfDoc d).map (fun c => c.page_content.data))
        = d.page_content.data := by
  constructor
  · intro documents
    rfl
  · intro d
    have hcomp :
        ((fun c : Document => c.page_content.data) ∘
            fun cs => ({ d with page_content := ⟨cs⟩ } : Document)) = id := rfl
    have hmap :
        (chunksOfDoc d).map (fun c => c.page_content.data)
          = chunkContent chunk_size chunk_overlap (by decide) d.page_content.data := by
      rw [chunksOfDoc, List.map_map, hcomp, List.map_id]
    rw [hmap]
    exact chunk_reconstruction chunk_size chunk_overlap (by decide) d.page_content.data

/-- Helper: the refusal phrase contains the marker substring that
handle_user_query tests for. -/
theorem refusal_phrase_contains_marker :
    containsSubstr REFUSAL_PHRASE refusalMarker = true := by decide

/-- C4: in PDF-Only mode, when the chain response is the literal refusal
phrase, handle_user_query returns that phrase verbatim with an empty
source_documents list (after one retrieval and one generation call). -/
theorem c4_pdf_only_refusal_verbatim (user_question : String) (vs : VectorStore)
    (pdfChainAnswer : List Document → String → String)
    (generalModelAnswer : String → String)
    (hresp : pdfChainAnswer (vs.similarity_search user_question) user_question
        = REFUSAL_PHRASE) :
    handle_user_query user_question "PDF-Only" (some vs) pdfChainAnswer
        generalModelAnswer
      = ({ output_text := REFUSAL_PHRASE, source_documents := [] },
         [ChatEvent.retrievalCall, ChatEvent.generationCall]) := by
  rw [handle_user_query]
  rw [hresp]
  rw [if_pos refusal_phrase_contains_marker]
  rw [if_neg (by decide : ¬("PDF-Only" = "Hybrid"))]

/-- Witness for C4 at a concrete store, chain and question. -/
theorem c4_witness :
    handle_user_query "q" "PDF-Only" (some vsEmpty)
        (fun _ _ => REFUSAL_PHRASE) (fun _ => "")
      = ({ output_text := REFUSAL_PHRASE, source_documents := [] },
         [ChatEvent.retrievalCall, ChatEvent.generationCall]) :=
  c4_pdf_only_refusal_verbatim "q" vsEmpty (fun _ _ => REFUSAL_PHRASE) (fun _ => "") rfl

/-- C5 counterexample: a concrete Hybrid-mode query whose chain response
is the refusal phrase makes handle_user_query perform a second generation
invocation (its explicit refusal-detection step triggers a fallback), so
the controller does not leave the relevance judgment to a single
generation invocation. -/
theorem c5_counterexample :
    ((handle_user_query "What is the capital of France?" "Hybrid" (some vsEmpty)
        (fun _ _ => REFUSAL_PHRASE) (fun _ => "Paris")).2.count
      ChatEvent.generationCall = 2) ∧
    (handle_user_query "What is the capital of France?" "Hybrid" (some vsEmpty)
        (fun _ _ => REFUSAL_PHRASE) (fun _ => "Paris")).1.output_text
      = "Paris" ++ DISCLAIMER_SUFFIX ∧
    (handle_user_query "What is the capital of France?" "Hybrid" (some vsEmpty)
        (fun _ _ => REFUSAL_PHRASE) (fun _ => "Paris")).1.source_documents
      = [] := by decide

/-- C5 amended: in Hybrid mode the controller does perform an explicit
detection step, testing the chain response for the refusal marker. When
the marker is found it makes a second, general-knowledge generation
invocation and returns that answer with a disclaimer appended and an
empty document-source citation list; when it is not found, a single
generation invocation produced the answer, returned with the retrieved
sources. -/
theorem c5_hybrid_detection_and_fallback (user_question : String)
    (vs : VectorStore) (pdfChainAnswer : List Document → String → String)
    (generalModelAnswer : String → String) :
    (containsSubstr (pdfChainAnswer (vs.similarity_search user_question) user_question)
          refusalMarker = true →
        handle_user_query user_question "Hybrid" (some vs) pdfChainAnswer
            generalModelAnswer
          = ({ output_text := generalModelAnswer user_question ++ DISCLAIMER_SUFFIX,
               source_documents := [] },
             [ChatEvent.retrievalCall, ChatEvent.generationCall,
              ChatEvent.generationCall])) ∧
    (containsSubstr (pdfChainAnswer (vs.similarity_search user_question) user_question)
          refusalMarker = false →
        handle_user_query user_question "Hybrid" (some vs) pdfChainAnswer
            generalModelAnswer
          = ({ output_text := pdfChainAnswer (vs.similarity_search user_question)
                 user_question,
               source_documents := vs.similarity_search user_question },
             [ChatEvent.retrievalCall, ChatEvent.generationCall])) := by
  constructor
  · intro hfound
    rw [handle_user_query, if_pos hfound, if_pos rfl]
  · intro hnot
    rw [handle_user_query, if_neg]
    rw [hnot]
    exact Bool.false_ne_true

/-- Witness for C5: both branches of the amended theorem at concrete
inputs. -/
theorem c5_witness :
    (handle_user_query "q" "Hybrid" (some vsEmpty)
        (fun _ _ => REFUSAL_PHRASE) (fun _ => "Paris")
      = ({ output_text := "Paris" ++ DISCLAIMER_SUFFIX, source_documents := [] },
         [ChatEvent.retrievalCall, ChatEvent.generationCall,
          ChatEvent.generationCall])) ∧
    (handle_user_query "q" "Hybrid" (some vsEmpty)
        (fun _ _ => "The answer is 42.") (fun _ => "Paris")
      = ({ output_text := "The answer is 42.", source_documents := [] },
         [ChatEvent.retrievalCall, ChatEvent.generationCall])) :=
  ⟨(c5_hybrid_detection_and_fallback "q" vsEmpty
      (fun _ _ => REFUSAL_PHRASE) (fun _ => "Paris")).1 (by decide),
   (c5_hybrid_detection_and_fallback "q" vsEmpty
      (fun _ _ => "The answer is 42.") (fun _ => "Paris")).2 (by decide)⟩

/-- C6 counterexample: with no retriever installed, a concrete
non-greeting query in the app.py main dispatch is answered by the
general-knowledge model (the reply is the model text, which does not even
mention uploading), not by a guidance message asking the user to upload
documents first. -/
theorem c6_counterexample :
    ((app_main_step stNoIndex "What is the capital of France?"
        (fun _ => .error (.otherError "unused")) (.ok "Paris")).state.chat_history
      = [{ role := "user", content := "What is the capital of France?", sources := [] },
         { role := "ai", content := "Paris", sources := [] }]) ∧
    containsSubstr "Paris" "upload" = false ∧
    (app_main_step stNoIndex "What is the capital of France?"
        (fun _ => .error (.otherError "unused")) (.ok "Paris")).events
      = [CallEvent.generalCall] := by decide

/-- C6 amended: a query reaching the controller handle_user_query with no
knowledge base gets the guidance message asking to upload and process
documents, with no retrieval attempted, no generation call and empty
sources; in the app.py main dispatch, a non-greeting query with no
retriever performs no retrieval and raises no exception, but it is routed
to the general-knowledge model (its text is the reply, and any model
error is caught and shown) instead of producing a guidance message. -/
theorem c6_no_index_behaviour :
    (∀ (user_question answer_mode : String)
       (pdfChainAnswer : List Document → String → String)
       (generalModelAnswer : String → String),
        handle_user_query user_question answer_mode none pdfChainAnswer
            generalModelAnswer
          = ({ output_text := KB_NOT_INITIALIZED, source_documents := [] }, [])) ∧
    (∀ (st : SessionState) (input : String)
       (rag : String → Except GenError QueryResponse) (t : String),
        st.retriever = none → input ≠ "" →
        GREETINGS.contains (pyStrip (pyLower input)) = false →
        app_main_step st input rag (.ok t)
          = { state :=
                { st with chat_history := st.chat_history ++
                    [{ role := "user", content := input, sources := [] },
                     { role := "ai", content := t, sources := [] }] },
              shownError := none, raised := none,
              events := [CallEvent.generalCall] }) ∧
    (∀ (st : SessionState) (input : String)
       (rag : String → Except GenError QueryResponse) (e : GenError),
        st.retriever = none → input ≠ "" →
        GREETINGS.contains (pyStrip (pyLower input)) = false →
        app_main_step st input rag (.error e)
          = { state :=
                { st with chat_history := st.chat_history ++
                    [{ role := "user", content := input, sources := [] }] },
              shownError := some (couldNotGetResponse e), raised := none,
              events := [CallEvent.generalCall] }) := by
  refine ⟨fun _ _ _ _ => rfl, ?_, ?_⟩
  · intro st input rag t hr hne hg
    have hg2 : pyStrip (pyLower input) ∉ GREETINGS := by simpa using hg
    simp [app_main_step, hne, hg2, hr]
  · intro st input rag e hr hne hg
    have hg2 : pyStrip (pyLower input) ∉ GREETINGS := by simpa using hg
    simp [app_main_step, hne, hg2, hr]

/-- Witness for C6 at concrete inputs: the controller guidance reply and
both general-branch outcomes of the app.py dispatch. -/
theorem c6_witness :
    (handle_user_query "q" "Hybrid" none (fun _ _ => "x") (fun _ => "y")
      = ({ output_text := KB_NOT_INITIALIZED, source_documents := [] }, [])) ∧
    (app_main_step stNoIndex "hello there" (fun _ => .error .resourceExhausted) (.ok "Hi!")
      = { state :=
            { stNoIndex with chat_history :=
                [{ role := "user", content := "hello there", sources := [] },
                 { role := "ai", content := "Hi!", sources := [] }] },
          shownError := none, raised := none,
          events := [CallEvent.generalCall] }) ∧
    (app_main_step stNoIndex "hello there" (fun _ => .error .resourceExhausted)
        (.error .resourceExhausted)
      = { state :=
            { stNoIndex with chat_history :=
                [{ role := "user", content := "hello there", sources := [] }] },
          shownError := some (couldNotGetResponse .resourceExhausted), raised := none,
          events := [CallEvent.generalCall] }) := by
  refine ⟨c6_no_index_behaviour.1 "q" "Hybrid" (fun _ _ => "x") (fun _ => "y"), ?_, ?_⟩
  · exact c6_no_index_behaviour.2.1 stNoIndex "hello there"
      (fun _ => .error .resourceExhausted) "Hi!" rfl (by decide) (by decide)
  · exact c6_no_index_behaviour.2.2 stNoIndex "hello there"
      (fun _ => .error .resourceExhausted) .resourceExhausted rfl (by decide) (by decide)

/-- C7: an input whose lowercasing is exactly one of the fixed greetings
short-circuits the dispatch of both main variants: the canned greeting is
appended and neither a rag call (retrieval plus generation) nor a direct
generation call occurs. -/
theorem c7_greeting_short_circuit (st : SessionState) (input : String)
    (rag rag2 : String → Except GenError QueryResponse)
    (gen gen2 : Except GenError String)
    (hg : GREETINGS.contains (pyLower input) = true) :
    app_main_step st input rag gen
      = { state :=
            { st with chat_history := st.chat_history ++
                [{ role := "user", content := input, sources := [] },
                 { role := "ai", content := CANNED_GREETING, sources := [] }] },
          shownError := none, raised := none, events := [] } ∧
    ap_main_step st input rag2 gen2
      = { state :=
            { st with chat_history := st.chat_history ++
                [{ role := "user", content := input, sources := [] },
                 { role := "ai", content := CANNED_GREETING, sources := [] }] },
          shownError := none, raised := none, events := [] } := by
  have hmem : pyLower input = "hi" ∨ pyLower input = "hello" ∨ pyLower input = "hey" := by
    simpa [GREETINGS] using hg
  have hne : input ≠ "" := by
    intro he
    rw [he] at hmem
    rcases hmem with h | h | h <;> exact absurd h (by decide)
  have hstrip : GREETINGS.contains (pyStrip (pyLower input)) = true := by
    rcases hmem with h | h | h <;> rw [h] <;> decide
  have hstrip2 : pyStrip (pyLower input) ∈ GREETINGS := by simpa using hstrip
  constructor
  · simp [app_main_step, hne, hstrip2]
  · simp [ap_main_step, hne, hstrip2]

/-- Witness for C7: the input Hi (mixed case) short-circuits both
dispatches. -/
theorem c7_witness :
    app_main_step stHybrid "Hi" (fun _ => .error .resourceExhausted)
        (.error .resourceExhausted)
      = { state :=
            { stHybrid with chat_history :=
                [{ role := "user", content := "Hi", sources := [] },
                 { role := "ai", content := CANNED_GREETING, sources := [] }] },
          shownError := none, raised := none, events := [] } ∧
    ap_main_step stHybrid "Hi" (fun _ => .error .resourceExhausted)
        (.error .resourceExhausted)
      = { state :=
            { stHybrid with chat_history :=
                [{ role := "user", content := "Hi", sources := [] },
                 { role := "ai", content := CANNED_GREETING, sources := [] }] },
          shownError := none, raised := none, events := [] } :=
  c7_greeting_short_circuit stHybrid "Hi"
    (fun _ => .error .resourceExhausted) (fun _ => .error .resourceExhausted)
    (.error .resourceExhausted) (.error .resourceExhausted) (by decide)

/-- C3 counterexample: in the ap.py main dispatch with an installed
retriever in Hybrid mode, when both the first rag call and the PDF-Only
retry fail with ResourceExhausted, the exception escapes the handler (a
raw error) and no apologetic message is appended to the chat: the claim
that a second overload yields a fixed apology is false on this code. -/
theorem c3_counterexample :
    (ap_main_step stHybrid "What is X?" (fun _ => .error .resourceExhausted)
        (.ok "unused")).raised = some GenError.resourceExhausted ∧
    (ap_main_step stHybrid "What is X?" (fun _ => .error .resourceExhausted)
        (.ok "unused")).state.chat_history
      = [{ role := "user", content := "What is X?", sources := [] }] ∧
    (ap_main_step stHybrid "What is X?" (fun _ => .error .resourceExhausted)
        (.ok "unused")).shownError = none := by decide

/-- C3 amended: when the first rag call of the ap.py dispatch fails with
ResourceExhausted, the controller retries exactly once with the mode
argument fixed to PDF-Only and prefixes the busy-traffic notice to the
fallback answer; but when that retry also fails, the exception propagates
out of the handler uncaught instead of yielding a fixed apologetic
message (the fixed high-traffic apology exists only in the no-retriever
general-chat branch). -/
theorem c3_degraded_retry (st : SessionState) (input : String)
    (r : HybridRetriever) (rag : String → Except GenError QueryResponse)
    (gen : Except GenError String)
    (hr : st.retriever = some r) (hne : input ≠ "")
    (hg : GREETINGS.contains (pyStrip (pyLower input)) = false)
    (hfirst : rag st.search_mode = .error .resourceExhausted) :
    (∀ resp2, rag "PDF-Only" = .ok resp2 →
      ap_main_step st input rag gen
        = { state :=
              { st with chat_history := st.chat_history ++
                  [{ role := "user", content := input, sources := [] },
                   { role := "ai", content := BUSY_WARNING ++ resp2.output_text,
                     sources := [] }] },
            shownError := none, raised := none,
            events := [CallEvent.ragCall st.search_mode,
                       CallEvent.ragCall "PDF-Only"] }) ∧
    (∀ e2, rag "PDF-Only" = .error e2 →
      ap_main_step st input rag gen
        = { state :=
              { st with chat_history := st.chat_history ++
                  [{ role := "user", content := input, sources := [] }] },
            shownError := none, raised := some e2,
            events := [CallEvent.ragCall st.search_mode,
                       CallEvent.ragCall "PDF-Only"] }) := by
  have hg2 : pyStrip (pyLower input) ∉ GREETINGS := by simpa using hg
  constructor
  · intro resp2 hsecond
    simp [ap_main_step, hne, hg2, hr, hfirst, hsecond]
  · intro e2 hsecond
    simp [ap_main_step, hne, hg2, hr, hfirst, hsecond]

/-- Witness for C3: both retry outcomes at concrete inputs, with the
first call overloaded in Hybrid mode. -/
theorem c3_witness :
    (ap_main_step stHybrid "What is X?"
        (fun m => if m = "PDF-Only" then
            .ok { output_text := "From the documents.", source_documents := [] }
          else .error .resourceExhausted)
        (.ok "unused")
      = { state :=
            { stHybrid with chat_history :=
                [{ role := "user", content := "What is X?", sources := [] },
                 { role := "ai",
                   content := BUSY_WARNING ++ "From the documents.",
                   sources := [] }] },
          shownError := none, raised := none,
          events := [CallEvent.ragCall "Hybrid", CallEvent.ragCall "PDF-Only"] }) ∧
    (ap_main_step stHybrid "What is X?" (fun _ => .error .resourceExhausted)
        (.ok "unused")
      = { state :=
            { stHybrid with chat_history :=
                [{ role := "user", content := "What is X?", sources := [] }] },
          shownError := none, raised := some GenError.resourceExhausted,
          events := [CallEvent.ragCall "Hybrid", CallEvent.ragCall "PDF-Only"] }) := by
  constructor
  · exact (c3_degraded_retry stHybrid "What is X?" r0
      (fun m => if m = "PDF-Only" then
          .ok { output_text := "From the documents.", source_documents := [] }
        else .error .resourceExhausted)
      (.ok "unused") rfl (by decide) (by decide) rfl).1
      { output_text := "From the documents.", source_documents := [] } rfl
  · exact (c3_degraded_retry stHybrid "What is X?"
      r0 (fun _ => .error .resourceExhausted) (.ok "unused")
      rfl (by decide) (by decide) rfl).2 GenError.resourceExhausted rfl

/-- C2 counterexample: a session with a previously installed retriever
runs a new upload whose retriever construction fails; the handler then
resets the retriever to None, so the previously installed retriever does
not remain active. -/
theorem c2_counterexample :
    (handle_file_upload stPrev [("b.pdf", "XX")] (.ok [doc0])
        (.error "ValueError")).retriever = none ∧
    stPrev.retriever = some r0 ∧
    (none : Option HybridRetriever) ≠ some r0 := by decide

/-- C2 amended: when an upload batch fails (an exception during parsing
or chunking, or during retriever construction with a nonempty chunk set),
handle_file_upload clears the session: the retriever becomes None and the
uploaded-files map empty — the previous retriever is discarded, not kept.
No partial index is ever installed: the resulting retriever is always the
unchanged previous one, None, or the fully built new retriever. -/
theorem c2_failure_clears_retriever (st : SessionState)
    (uploader_files : List (String × String))
    (chunksOutcome : Except String (List Document))
    (buildOutcome : Except String HybridRetriever) :
    (∀ e, uploader_files ≠ [] → chunksOutcome = .error e →
      handle_file_upload st uploader_files chunksOutcome buildOutcome
        = { st with retriever := none, uploaded_files_data := [] }) ∧
    (∀ e chunks, uploader_files ≠ [] → chunksOutcome = .ok chunks →
      chunks ≠ [] → buildOutcome = .error e →
      handle_file_upload st uploader_files chunksOutcome buildOutcome
        = { st with retriever := none, uploaded_files_data := [] }) ∧
    ((handle_file_upload st uploader_files chunksOutcome buildOutcome).retriever
        = st.retriever ∨
     (handle_file_upload st uploader_files chunksOutcome buildOutcome).retriever
        = none ∨
     ∃ r, buildOutcome = .ok r ∧
       (handle_file_upload st uploader_files chunksOutcome buildOutcome).retriever
         = some r) := by
  refine ⟨?_, ?_, ?_⟩
  · intro e hne hc
    simp [handle_file_upload, hne, hc]
  · intro e chunks hne hc hchunks hb
    simp [handle_file_upload, hne, hc, hchunks, hb]
  · by_cases hne : uploader_files.isEmpty
    · simp [handle_file_upload, hne]
    · cases chunksOutcome with
      | error e => simp [handle_file_upload, hne]
      | ok chunks =>
          by_cases hchunks : chunks.isEmpty
          · simp [handle_file_upload, hne, hchunks]
          · cases buildOutcome with
            | ok r =>
                refine Or.inr (Or.inr ⟨r, rfl, ?_⟩)
                simp [handle_file_upload, hne, hchunks]
            | error e => simp [handle_file_upload, hne, hchunks]

/-- Witness for C2: both failure modes at concrete inputs clear the
previously installed retriever. -/
theorem c2_witness :
    (handle_file_upload stPrev [("b.pdf", "XX")] (.error "parse failure")
        (.ok r0)
      = { stPrev with retriever := none, uploaded_files_data := [] }) ∧
    (handle_file_upload stPrev [("b.pdf", "XX")] (.ok [doc0])
        (.error "ValueError")
      = { stPrev with retriever := none, uploaded_files_data := [] }) :=
  ⟨(c2_failure_clears_retriever stPrev [("b.pdf", "XX")] (.error "parse failure")
      (.ok r0)).1 "parse failure" (by decide) rfl,
   (c2_failure_clears_retriever stPrev [("b.pdf", "XX")] (.ok [doc0])
      (.error "ValueError")).2.1 "ValueError" [doc0] (by decide) rfl (by decide) rfl⟩

/-- C9: create_hybrid_retriever rejects invalid construction inputs
immediately: an empty chunk list raises the empty-documents ValueError
and a missing Google or Cohere key raises the missing-keys ValueError, in
both cases before any retrieval component is constructed (the build trace
is empty), so the failure is reported to the caller rather than deferred
to query time. -/
theorem c9_invalid_inputs_fail_before_build (docs : List Document)
    (google_api_key cohere_api_key : String) (k rerank_top_n : Nat) :
    (docs = [] →
      create_hybrid_retriever docs google_api_key cohere_api_key k rerank_top_n
        = (.error EMPTY_DOCS_ERROR, [])) ∧
    (docs ≠ [] → (google_api_key = "" ∨ cohere_api_key = "") →
      create_hybrid_retriever docs google_api_key cohere_api_key k rerank_top_n
        = (.error MISSING_KEYS_ERROR, [])) ∧
    ((docs = [] ∨ google_api_key = "" ∨ cohere_api_key = "") →
      ∃ msg,
        (create_hybrid_retriever docs google_api_key cohere_api_key k
            rerank_top_n).1 = .error msg ∧
        (create_hybrid_retriever docs google_api_key cohere_api_key k
            rerank_top_n).2 = []) := by
  refine ⟨?_, ?_, ?_⟩
  · intro hd
    subst hd
    rfl
  · intro hd hkeys
    have hd2 : docs.isEmpty = false := by
      cases docs with
      | nil => exact absurd rfl hd
      | cons a l => rfl
    rcases hkeys with h | h <;> subst h <;> simp [create_hybrid_retriever, hd2]
  · intro hinv
    by_cases hd : docs = []
    · subst hd
      exact ⟨EMPTY_DOCS_ERROR, rfl, rfl⟩
    · have hkeys : google_api_key = "" ∨ cohere_api_key = "" := by
        rcases hinv with h | h
        · exact absurd h hd
        · exact h
      have hd2 : docs.isEmpty = false := by
        cases docs with
        | nil => exact absurd rfl hd
        | cons a l => rfl
      refine ⟨MISSING_KEYS_ERROR, ?_, ?_⟩ <;>
        rcases hkeys with h | h <;> subst h <;>
        simp [create_hybrid_retriever, hd2]

/-- Witness for C9: the empty batch and a missing Cohere key both fail
with an empty build trace. -/
theorem c9_witness :
    (create_hybrid_retriever [] "gkey" "ckey" 10 4
      = (.error EMPTY_DOCS_ERROR, [])) ∧
    (create_hybrid_retriever [doc0] "gkey" "" 10 4
      = (.error MISSING_KEYS_ERROR, [])) :=
  ⟨(c9_invalid_inputs_fail_before_build [] "gkey" "ckey" 10 4).1 rfl,
   (c9_invalid_inputs_fail_before_build [doc0] "gkey" "" 10 4).2.1
     (by decide) (Or.inr rfl)⟩

/-- Helper: process_uploaded_files distributes over batch concatenation,
both for documents and for printed messages. -/
theorem process_uploaded_files_append (xs ys : List (Option UploadedFile)) :
    process_uploaded_files (xs ++ ys)
      = ((process_uploaded_files xs).1 ++ (process_uploaded_files ys).1,
         (process_uploaded_files xs).2 ++ (process_uploaded_files ys).2) := by
  induction xs with
  | nil => simp [process_uploaded_files]
  | cons a rest ih =>
      cases a with
      | none => simpa [process_uploaded_files] using ih
      | some f => simp [process_uploaded_files, ih]

/-- C8: a per-file parsing failure (a corrupt or unreadable PDF, whose
open call raises) is caught and logged, contributes no text units, and
leaves the units of every other file of the batch unchanged, in order;
and a file of unknown extension is skipped with a printed warning while
the rest of the batch is processed unchanged. -/
theorem c8_per_file_failure_isolation (xs ys : List (Option UploadedFile))
    (nm e : String) :
    (process_uploaded_files
        (xs ++ some { name := nm, ext := ".pdf", data := .pdf (.error e) } :: ys)
      = ((process_uploaded_files xs).1 ++ (process_uploaded_files ys).1,
         (process_uploaded_files xs).2 ++
           pdfErrorLog nm e :: (process_uploaded_files ys).2)) ∧
    (∀ f : UploadedFile, f.ext ≠ ".pdf" → f.ext ≠ ".docx" → f.ext ≠ ".pptx" →
      process_uploaded_files (xs ++ some f :: ys)
        = ((process_uploaded_files xs).1 ++ (process_uploaded_files ys).1,
           (process_uploaded_files xs).2 ++
             unsupportedLog f.ext f.name :: (process_uploaded_files ys).2)) := by
  constructor
  · rw [show xs ++ some ({ name := nm, ext := ".pdf", data := .pdf (.error e) } : UploadedFile) :: ys
        = xs ++ ([some { name := nm, ext := ".pdf", data := .pdf (.error e) }] ++ ys) from rfl]
    rw [process_uploaded_files_append, process_uploaded_files_append]
    simp [process_uploaded_files, parseFile, _parse_pdf]
  · intro f h1 h2 h3
    have hp : parseFile f = ([], [unsupportedLog f.ext f.name]) := by
      unfold parseFile
      rw [if_neg h1, if_neg h2, if_neg h3]
    rw [show xs ++ some f :: ys = xs ++ ([some f] ++ ys) from rfl]
    rw [process_uploaded_files_append, process_uploaded_files_append]
    simp [process_uploaded_files, hp]

/-- Witness for C8: a concrete three-file batch in which the middle file
is a corrupt PDF, and one in which the middle file has an unknown
extension; in both cases the undamaged files parse as if alone. -/
theorem c8_witness :
    (process_uploaded_files
        [some { name := "a.pdf", ext := ".pdf", data := .pdf (.ok [.ok "alpha"]) },
         some { name := "bad.pdf", ext := ".pdf", data := .pdf (.error "broken file") },
         some { name := "c.pdf", ext := ".pdf", data := .pdf (.ok [.ok "gamma"]) }]
      = ([{ page_content := "alpha", source := "a.pdf", page := some 1, slide := none },
          { page_content := "gamma", source := "c.pdf", page := some 1, slide := none }],
         [pdfErrorLog "bad.pdf" "broken file"])) ∧
    (process_uploaded_files
        [some { name := "a.pdf", ext := ".pdf", data := .pdf (.ok [.ok "alpha"]) },
         some { name := "n.txt", ext := ".txt", data := .docx (.ok ["ignored"]) },
         some { name := "c.pdf", ext := ".pdf", data := .pdf (.ok [.ok "gamma"]) }]
      = ([{ page_content := "alpha", source := "a.pdf", page := some 1, slide := none },
          { page_content := "gamma", source := "c.pdf", page := some 1, slide := none }],
         [unsupportedLog ".txt" "n.txt"])) := by
  constructor
  · have h := (c8_per_file_failure_isolation
      [some { name := "a.pdf", ext := ".pdf", data := .pdf (.ok [.ok "alpha"]) }]
      [some { name := "c.pdf", ext := ".pdf", data := .pdf (.ok [.ok "gamma"]) }]
      "bad.pdf" "broken file").1
    exact h.trans (by decide)
  · have h := (c8_per_file_failure_isolation
      [some { name := "a.pdf", ext := ".pdf", data := .pdf (.ok [.ok "alpha"]) }]
      [some { name := "c.pdf", ext := ".pdf", data := .pdf (.ok [.ok "gamma"]) }]
      "unused" "unused").2
      { name := "n.txt", ext := ".txt", data := .docx (.ok ["ignored"]) }
      (by decide) (by decide) (by decide)
    exact h.trans (by decide)

/-- Helper: stripping to nonempty implies the string was nonempty. -/
theorem pyStrip_ne_empty {s : String} (h : pyStrip s ≠ "") : s ≠ "" := by
  intro hs
  rw [hs] at h
  exact h rfl

/-- Helper: every document emitted by the PDF page loop started at
counter n carries the file name as source, nonempty content, no slide
label and a 1-based page label strictly above n; and the emitted page
labels are strictly increasing. -/
theorem pdfPagesLoop_facts (filename : String) :
    ∀ (pages : List (Except String String)) (n : Nat),
      (∀ d ∈ (pdfPagesLoop filename n pages).1,
         d.source = filename ∧ d.page_content ≠ "" ∧ d.slide = none ∧
         ∃ k, d.page = some (k + 1) ∧ n ≤ k) ∧
      ((pdfPagesLoop filename n pages).1.filterMap (fun d => d.page)).Pairwise
        (· < ·) := by
  intro pages
  induction pages with
  | nil =>
      intro n
      constructor
      · intro d hd
        simp [pdfPagesLoop] at hd
      · simp [pdfPagesLoop]
  | cons p rest ih =>
      intro n
      cases p with
      | error e =>
          constructor
          · intro d hd
            simp [pdfPagesLoop] at hd
          · simp [pdfPagesLoop]
      | ok text =>
          by_cases ht : text = ""
          · constructor
            · intro d hd
              simp only [pdfPagesLoop, ht, if_pos rfl, List.nil_append] at hd
              obtain ⟨h1, h2, h3, k, hk, hnk⟩ := (ih (n + 1)).1 d hd
              exact ⟨h1, h2, h3, k, hk, by omega⟩
            · simp only [pdfPagesLoop, ht, if_pos rfl, List.nil_append]
              exact (ih (n + 1)).2
          · constructor
            · intro d hd
              simp only [pdfPagesLoop, if_neg ht, List.singleton_append,
                List.mem_cons] at hd
              rcases hd with hd | hd
              · subst hd
                exact ⟨rfl, ht, rfl, n, rfl, le_refl n⟩
              · obtain ⟨h1, h2, h3, k, hk, hnk⟩ := (ih (n + 1)).1 d hd
                exact ⟨h1, h2, h3, k, hk, by omega⟩
            · simp only [pdfPagesLoop, if_neg ht, List.singleton_append,
                List.filterMap_cons]
              rw [List.pairwise_cons]
              constructor
              · intro p hp
                rw [List.mem_filterMap] at hp
                obtain ⟨d, hd, hpage⟩ := hp
                obtain ⟨_, _, _, k, hk, hnk⟩ := (ih (n + 1)).1 d hd
                rw [hk] at hpage
                have : p = k + 1 := by
                  injection hpage with h
                  omega
                omega
              · exact (ih (n + 1)).2

/-- Helper: the analogue of the PDF page loop facts for the PPTX slide
loop (1-based slide labels, no page label, nonempty content). -/
theorem pptxSlidesLoop_facts (filename : String) :
    ∀ (slides : List (List String)) (n : Nat),
      (∀ d ∈ (pptxSlidesLoop filename n slides).1,
         d.source = filename ∧ d.page_content ≠ "" ∧ d.page = none ∧
         ∃ k, d.slide = some (k + 1) ∧ n ≤ k) ∧
      ((pptxSlidesLoop filename n slides).1.filterMap (fun d => d.slide)).Pairwise
        (· < ·) := by
  intro slides
  induction slides with
  | nil =>
      intro n
      constructor
      · intro d hd
        simp [pptxSlidesLoop] at hd
      · simp [pptxSlidesLoop]
  | cons shapes rest ih =>
      intro n
      by_cases ht : pyStrip (String.join (shapes.map (fun t => t ++ "\n"))) = ""
      · constructor
        · intro d hd
          simp only [pptxSlidesLoop, ht, if_pos rfl, List.nil_append] at hd
          obtain ⟨h1, h2, h3, k, hk, hnk⟩ := (ih (n + 1)).1 d hd
          exact ⟨h1, h2, h3, k, hk, by omega⟩
        · simp only [pptxSlidesLoop, ht, if_pos rfl, List.nil_append]
          exact (ih (n + 1)).2
      · constructor
        · intro d hd
          simp only [pptxSlidesLoop, if_neg ht, List.singleton_append,
            List.mem_cons] at hd
          rcases hd with hd | hd
          · subst hd
            exact ⟨rfl, pyStrip_ne_empty ht, rfl, n, rfl, le_refl n⟩
          · obtain ⟨h1, h2, h3, k, hk, hnk⟩ := (ih (n + 1)).1 d hd
            exact ⟨h1, h2, h3, k, hk, by omega⟩
        · simp only [pptxSlidesLoop, if_neg ht, List.singleton_append,
            List.filterMap_cons]
          rw [List.pairwise_cons]
          constructor
          · intro p hp
            rw [List.mem_filterMap] at hp
            obtain ⟨d, hd, hslide⟩ := hp
            obtain ⟨_, _, _, k, hk, hnk⟩ := (ih (n + 1)).1 d hd
            rw [hk] at hslide
            have : p = k + 1 := by
              injection hslide with h
              omega
            omega
          · exact (ih (n + 1)).2

/-- Helper: the single document a DOCX parse can emit has the file name
as source, nonempty content and no position label. -/
theorem docx_facts (r : Except String (List String)) (nm : String) :
    ∀ d ∈ (_parse_docx r nm).1,
      d.source = nm ∧ d.page_content ≠ "" ∧ d.page = none ∧ d.slide = none := by
  intro d hd
  cases r with
  | error e => simp [_parse_docx] at hd
  | ok paras =>
      by_cases hj : String.intercalate "\n" (paras.filter (fun p => p != "")) = ""
      · simp [_parse_docx, hj] at hd
      · simp only [_parse_docx, if_neg hj, List.mem_singleton] at hd
        subst hd
        exact ⟨rfl, hj, rfl, rfl⟩

/-- C10: the output of process_uploaded_files is the in-order
concatenation of the per-file parses (file order preserved); every
emitted document has nonempty content and carries its source file name;
PDF parses attach a 1-based page label and no slide label, DOCX parses
attach no position label at all, PPTX parses attach a 1-based slide label
and no page label; and within one file the page labels, respectively
slide labels, are strictly ascending. -/
theorem c10_document_invariants :
    (∀ files, (process_uploaded_files files).1
        = (files.filterMap id).flatMap (fun f => (parseFile f).1)) ∧
    (∀ f : UploadedFile, ∀ d ∈ (parseFile f).1,
        d.page_content ≠ "" ∧ d.source = f.name) ∧
    (∀ r nm, ∀ d ∈ (_parse_pdf r nm).1,
        d.slide = none ∧ ∃ k, d.page = some (k + 1)) ∧
    (∀ r nm, ∀ d ∈ (_parse_docx r nm).1, d.page = none ∧ d.slide = none) ∧
    (∀ r nm, ∀ d ∈ (_parse_pptx r nm).1,
        d.page = none ∧ ∃ k, d.slide = some (k + 1)) ∧
    (∀ r nm, ((_parse_pdf r nm).1.filterMap (fun d => d.page)).Pairwise (· < ·)) ∧
    (∀ r nm, ((_parse_pptx r nm).1.filterMap (fun d => d.slide)).Pairwise
        (· < ·)) := by
  have hpdf : ∀ r nm, ∀ d ∈ (_parse_pdf r nm).1,
      d.source = nm ∧ d.page_content ≠ "" ∧ d.slide = none ∧
      ∃ k, d.page = some (k + 1) := by
    intro r nm d hd
    cases r with
    | error e => simp [_parse_pdf] at hd
    | ok pages =>
        obtain ⟨h1, h2, h3, k, hk, _⟩ :=
          (pdfPagesLoop_facts nm pages 0).1 d hd
        exact ⟨h1, h2, h3, k, hk⟩
  have hpptx : ∀ r nm, ∀ d ∈ (_parse_pptx r nm).1,
      d.source = nm ∧ d.page_content ≠ "" ∧ d.page = none ∧
      ∃ k, d.slide = some (k + 1) := by
    intro r nm d hd
    cases r with
    | error e => simp [_parse_pptx] at hd
    | ok slides =>
        obtain ⟨h1, h2, h3, k, hk, _⟩ :=
          (pptxSlidesLoop_facts nm slides 0).1 d hd
        exact ⟨h1, h2, h3, k, hk⟩
  refine ⟨?_, ?_, ?_, ?_, ?_, ?_, ?_⟩
  · intro files
    induction files with
    | nil => rfl
    | cons a rest ih =>
        cases a with
        | none => simpa [process_uploaded_files] using ih
        | some f => simp [process_uploaded_files, ih]
  · intro f d hd
    obtain ⟨nm, ext, data⟩ := f
    unfold parseFile at hd
    dsimp only at hd
    by_cases h1 : ext = ".pdf"
    · rw [if_pos h1] at hd
      cases data with
      | pdf r =>
          obtain ⟨hs, hc, _, _⟩ := hpdf r nm d hd
          exact ⟨hc, hs⟩
      | docx r => simp at hd
      | pptx r => simp at hd
    · rw [if_neg h1] at hd
      by_cases h2 : ext = ".docx"
      · rw [if_pos h2] at hd
        cases data with
        | pdf r => simp at hd
        | docx r =>
            obtain ⟨hs, hc, _, _⟩ := docx_facts r nm d hd
            exact ⟨hc, hs⟩
        | pptx r => simp at hd
      · rw [if_neg h2] at hd
        by_cases h3 : ext = ".pptx"
        · rw [if_pos h3] at hd
          cases data with
          | pdf r => simp at hd
          | docx r => simp at hd
          | pptx r =>
              obtain ⟨hs, hc, _, _⟩ := hpptx r nm d hd
              exact ⟨hc, hs⟩
        · rw [if_neg h3] at hd
          simp at hd
  · intro r nm d hd
    obtain ⟨_, _, h3, k, hk⟩ := hpdf r nm d hd
    exact ⟨h3, k, hk⟩
  · intro r nm d hd
    obtain ⟨_, _, h3, h4⟩ := docx_facts r nm d hd
    exact ⟨h3, h4⟩
  · intro r nm d hd
    obtain ⟨_, _, h3, k, hk⟩ := hpptx r nm d hd
    exact ⟨h3, k, hk⟩
  · intro r nm
    cases r with
    | error e => simp [_parse_pdf]
    | ok pages => exact (pdfPagesLoop_facts nm pages 0).2
  · intro r nm
    cases r with
    | error e => simp [_parse_pptx]
    | ok slides => exact (pptxSlidesLoop_facts nm slides 0).2

/-- Witness for C10 at concrete parses: a two-page PDF with an empty
middle page, a DOCX file and a two-slide PPTX, checking contents,
sources and 1-based ascending position labels. -/
theorem c10_witness :
    ((Document.mk "hello" "a.pdf" (some 1) none).page_content ≠ "" ∧
     (Document.mk "hello" "a.pdf" (some 1) none).source
       = (UploadedFile.mk "a.pdf" ".pdf" (.pdf (.ok [.ok "hello"]))).name) ∧
    ((Document.mk "intro\nbody" "b.docx" none none).page = none ∧
     (Document.mk "intro\nbody" "b.docx" none none).slide = none) ∧
    ((Document.mk "deck\n" "c.pptx" none (some 2)).page = none ∧
     ∃ k, (Document.mk "deck\n" "c.pptx" none (some 2)).slide = some (k + 1)) := by
  refine ⟨?_, ?_, ?_⟩
  · exact c10_document_invariants.2.1
      (UploadedFile.mk "a.pdf" ".pdf" (.pdf (.ok [.ok "hello"])))
      (Document.mk "hello" "a.pdf" (some 1) none) (by decide)
  · exact c10_document_invariants.2.2.2.1 (.ok ["intro", "", "body"]) "b.docx"
      (Document.mk "intro\nbody" "b.docx" none none) (by decide)
  · exact c10_document_invariants.2.2.2.2.1 (.ok [[], ["deck"]]) "c.pptx"
      (Document.mk "deck\n" "c.pptx" none (some 2)) (by decide)
